import Mathlib

/-!
# Verification of the Milvus RAG chat application

Shallow embedding of the retrieval-augmented-generation chat application:
a document store (primary vector-database backend with an in-memory
fallback), a retrieval step, a generation step, an ingestion step, the
HTTP chat handler, and the React front-end's message-list update and
search-bar submit guard.

The backend (FastAPI `app.py`) is not part of the source tree that was
available; its document store, retrieval, generation, ingestion and HTTP
handlers are modelled from the specification, as marked on each
definition.  The front-end components (`App.jsx`, `Searchbar/index.jsx`)
are embedded from their JavaScript source.
-/

namespace RagApp

/-- Modelled from the spec: a stored document
`{id, text, embedding, metadata?}` (spec §3); the embedding is a
fixed-length numeric vector, modelled as a list of rationals. -/
structure Document where
  id : Nat
  text : String
  embedding : List ℚ
  metadata : Option String
deriving DecidableEq, Repr

/-- Modelled from the spec: the tagged backend variant
`StoreBackend = Primary | Fallback` chosen once at startup (spec §9). -/
inductive Backend where
  | primary
  | fallback
deriving DecidableEq, Repr

/-- Name under which `info()` reports a backend (spec §3: enum
`{vector-store, fallback}`). -/
def backendName : Backend → String
  | .primary => "vector-store"
  | .fallback => "fallback"

/-- Modelled from the spec: the document store — the chosen backend, the
ordered list of stored documents, and the next auto-assigned id
(spec §4.1). -/
structure DocumentStore where
  backend : Backend
  docs : List Document
  nextId : Nat
deriving DecidableEq, Repr

/-- Dot product of two vectors (zip-truncated). -/
def dot (a b : List ℚ) : ℚ := (List.zipWith (· * ·) a b).sum

/-- Sum of squares of a vector. -/
def sumsq (a : List ℚ) : ℚ := dot a a

/-- Modelled from the spec: the similarity score used by the in-memory
fallback scan (spec §4.1: cosine similarity).  To stay inside ℚ the
score is the signed square of the cosine,
`dot q v * |dot q v| / (sumsq q * sumsq v)`; `x ↦ x * |x|` is strictly
monotone, so ordering documents by this score is exactly ordering them
by cosine similarity, and the self-similarity of a non-zero vector is
the maximal value 1.  A zero denominator (a zero vector) yields score
0, mirroring the degenerate-cosine convention. -/
def cosSimKey (q v : List ℚ) : ℚ :=
  dot q v * |dot q v| / (sumsq q * sumsq v)

/-- Ordering relation on scored documents: non-increasing similarity
score. -/
def scoreGE (a b : Document × ℚ) : Prop := b.2 ≤ a.2

instance : DecidableRel scoreGE := fun a b => inferInstanceAs (Decidable (b.2 ≤ a.2))

instance : IsTotal (Document × ℚ) scoreGE := ⟨fun a b => le_total b.2 a.2⟩

instance : IsTrans (Document × ℚ) scoreGE :=
  ⟨fun _ _ _ hab hbc => le_trans hbc hab⟩

/-- Modelled from the spec: `search(queryEmbedding, k)` — score every
stored document, sort by descending similarity (stable, so ties keep
insertion order), and return the top `k` (spec §4.1).  Both backends
expose the identical contract (spec §4.1: "Both backends must produce
identical result shape"). -/
def search (store : DocumentStore) (q : List ℚ) (k : Nat) : List (Document × ℚ) :=
  ((store.docs.map fun d => (d, cosSimKey q d.embedding)).insertionSort scoreGE).take k

/-- Modelled from the spec: `insert(text, metadata?) -> id` — append a
document with the next auto-assigned id (spec §4.1). -/
def insert (store : DocumentStore) (text : String) (emb : List ℚ)
    (metadata : Option String) : Nat × DocumentStore :=
  (store.nextId,
   { store with
       docs := store.docs ++ [⟨store.nextId, text, emb, metadata⟩]
       nextId := store.nextId + 1 })

/-- Modelled from the spec: `info() -> {count, backend}` (spec §4.1). -/
structure StoreInfo where
  count : Nat
  backend : String
deriving DecidableEq, Repr

/-- Modelled from the spec: the store-introspection operation backing
`GET /milvus-info` (spec §4.1, §6). -/
def info (store : DocumentStore) : StoreInfo :=
  ⟨store.docs.length, backendName store.backend⟩

/-- Modelled from the spec: the three error kinds of §7. -/
inductive Err where
  | providerUnavailable
  | storeUnavailable
  | invalidInput
deriving DecidableEq, Repr

/-- Modelled from the spec: the HTTP status each error kind is surfaced
with (spec §7: `ProviderUnavailable` 5xx, `InvalidInput` 4xx;
`StoreUnavailable` is never surfaced per-request — status given here
only so the mapping is total). -/
def httpStatus : Err → Nat
  | .providerUnavailable => 500
  | .storeUnavailable => 503
  | .invalidInput => 400

/-- An external provider consumed as a black box: its response depends
on the input text and on the index of the call (the call counter), so a
definition that retried after a failure would be observably different
from one that does not. -/
def Provider (β : Type) := String → Nat → Except Unit β

/-- Modelled from the spec: the result of the retrieval step —
`{snippets: ordered list of string, method: enum}` (spec §4.2). -/
structure RetrieveResult where
  snippets : List String
  method : String
deriving DecidableEq, Repr

/-- Modelled from the spec: `retrieve(queryText)` — obtain one embedding
for the query from the embedding provider (failing the whole request,
with no retry, if the provider call errors), call Document Store
`search` with k=3, map results to their text field preserving
similarity order, and report which backend served the request
(spec §4.2).  The second component of the result is the advanced
embedding-call counter. -/
def retrieve (embed : Provider (List ℚ)) (store : DocumentStore)
    (queryText : String) (n : Nat) : Except Err RetrieveResult × Nat :=
  match embed queryText n with
  | .error _ => (.error .providerUnavailable, n + 1)
  | .ok v =>
      (.ok ⟨(search store v 3).map fun p => p.1.text, backendName store.backend⟩,
       n + 1)

/-- Modelled from the spec: the fixed instruction the generation prompt
opens with (spec §4.3; content unspecified there, any fixed string). -/
def fixedInstruction : String :=
  "You are a helpful assistant. Answer the question using the provided context."

/-- Modelled from the spec: the lines of the generation prompt — the
fixed instruction, then the snippets in their given order each on its
own line (none truncated), then the user query (spec §4.3). -/
def buildPromptLines (snippets : List String) (queryText : String) : List String :=
  fixedInstruction :: (snippets ++ [queryText])

/-- Modelled from the spec: the single prompt sent to the generation
API (spec §4.3). -/
def buildPrompt (snippets : List String) (queryText : String) : String :=
  String.intercalate "\n" (buildPromptLines snippets queryText)

/-- Modelled from the spec: `generate(queryText, snippets)` — build the
single prompt, send it to the hosted generation API, and return its
text output verbatim; a failed provider call surfaces a generation-kind
error (spec §4.3, §7).  The second component is the advanced
generation-call counter. -/
def generate (gen : Provider String) (queryText : String)
    (snippets : List String) (n : Nat) : Except Err String × Nat :=
  match gen (buildPrompt snippets queryText) n with
  | .error _ => (.error .providerUnavailable, n + 1)
  | .ok reply => (.ok reply, n + 1)

/-- Modelled from the spec: `ingest(text, metadata?) -> id` — computes
an embedding for `text` and delegates to Document Store `insert`; no
validation beyond non-empty text (spec §4.4, §7). -/
def ingest (embed : Provider (List ℚ)) (store : DocumentStore)
    (text : String) (metadata : Option String) (n : Nat) :
    Except Err Nat × DocumentStore × Nat :=
  if text = "" then (.error .invalidInput, store, n)
  else
    match embed text n with
    | .error _ => (.error .providerUnavailable, store, n + 1)
    | .ok v =>
        let r := insert store text v metadata
        (.ok r.1, r.2, n + 1)

/-- Modelled from the spec: the `POST /chat` response body
`{reply, contextUsed, searchMethod}` (spec §6). -/
structure ChatResponse where
  reply : String
  contextUsed : List String
  searchMethod : String
deriving DecidableEq, Repr

/-- Modelled from the spec: the `POST /chat` handler — reject an empty
message with `InvalidInput` (spec §7), retrieve context for the
message, generate a reply conditioned on the snippets, and return it;
a failed provider call is surfaced as a generation failure
(spec §2, §6, §7).  The trailing components are the advanced
embedding-call and generation-call counters. -/
def chat (embed : Provider (List ℚ)) (gen : Provider String)
    (store : DocumentStore) (message : String) (en gn : Nat) :
    Except Err ChatResponse × Nat × Nat :=
  if message = "" then (.error .invalidInput, en, gn)
  else
    match retrieve embed store message en with
    | (.error e, en') => (.error e, en', gn)
    | (.ok r, en') =>
        match generate gen message r.snippets gn with
        | (.error e, gn') => (.error e, en', gn')
        | (.ok reply, gn') => (.ok ⟨reply, r.snippets, r.method⟩, en', gn')

/-- Modelled from the spec: process startup — attempt the primary
backend; on any failure permanently switch to the fallback for the
remaining process lifetime (spec §4.1).  `primaryUp` says whether the
primary backend was reachable at startup. -/
def initStore (primaryUp : Bool) : DocumentStore :=
  ⟨if primaryUp then .primary else .fallback, [], 0⟩

/-- The whole-process state: the one store plus the environment fact of
whether the primary backend is currently reachable. -/
structure Sys where
  store : DocumentStore
  primaryReachable : Bool
deriving DecidableEq, Repr

/-- Modelled from the spec: the events that can happen after startup —
every store operation, plus the environment making the primary backend
reachable or unreachable again (spec §4.1: no periodic retry, no
mid-session failback). -/
inductive Op where
  | insertOp (text : String) (emb : List ℚ) (metadata : Option String)
  | searchOp (q : List ℚ) (k : Nat)
  | infoOp
  | primaryBecomesReachable
  | primaryBecomesUnreachable

/-- Modelled from the spec: the state transition for one event; no
event re-selects the backend after startup (spec §4.1). -/
def step (s : Sys) : Op → Sys
  | .insertOp text emb metadata => { s with store := (insert s.store text emb metadata).2 }
  | .searchOp _ _ => s
  | .infoOp => s
  | .primaryBecomesReachable => { s with primaryReachable := true }
  | .primaryBecomesUnreachable => { s with primaryReachable := false }

/-- Run a sequence of events from a state. -/
def run (s : Sys) (ops : List Op) : Sys := ops.foldl step s

/-! ## Front-end (embedded from `src/App.jsx` and
`src/components/Searchbar/index.jsx`) -/

/-- A chat message as held in the React `messages` state
(`App.jsx`): `{text, isUser, isLoading?}`; the timestamp plays no role
in the claims and is omitted. -/
structure Msg where
  text : String
  isUser : Bool
  isLoading : Bool
deriving DecidableEq, Repr

/-- The user's message appended first by `handleSendMessage`
(`App.jsx` lines 42-48). -/
def userMsg (message : String) : Msg := ⟨message, true, false⟩

/-- The loading placeholder appended inside the `try` block
(`App.jsx` lines 52-58). -/
def loadingMsg : Msg := ⟨"Thinking...", false, true⟩

/-- The assistant reply message appended on success
(`App.jsx` lines 76-83). -/
def replyMsg (reply : String) : Msg := ⟨reply, false, false⟩

/-- The error text shown when the fetch fails or returns a non-ok
status (`App.jsx` line 92). -/
def errorReplyText (emsg : String) : String :=
  "Sorry, I encountered an error: " ++ emsg ++
    ". Please make sure the backend server is running on http://localhost:8001"

/-- The three ways the `fetch` to `POST /chat` can complete in
`handleSendMessage`: a successful JSON reply, a non-ok HTTP status
(which the code turns into a thrown `Error`), or a thrown network
error. -/
inductive FetchOutcome where
  | success (reply : String)
  | httpError (status : Nat)
  | networkError (emsg : String)

/-- `App.handleSendMessage` (`App.jsx` lines 41-98) as a function from
the prior message list, the sent message and the fetch outcome to the
final message list: append the user's message, append the loading
placeholder, then on completion drop every message flagged `isLoading`
and append the backend's reply (on success) or an error text (on a
non-ok status or a thrown error). -/
def handleSendMessage (prior : List Msg) (message : String)
    (outcome : FetchOutcome) : List Msg :=
  let afterUser := prior ++ [userMsg message]
  let afterLoading := afterUser ++ [loadingMsg]
  match outcome with
  | .success reply =>
      (afterLoading.filter fun m => !m.isLoading) ++ [replyMsg reply]
  | .httpError status =>
      (afterLoading.filter fun m => !m.isLoading) ++
        [replyMsg (errorReplyText ("HTTP error! status: " ++ toString status))]
  | .networkError emsg =>
      (afterLoading.filter fun m => !m.isLoading) ++ [replyMsg (errorReplyText emsg)]

/-- JavaScript `String.prototype.trim` on the input, embedded at the
character-list level: strip whitespace from both ends. -/
def jsTrim (s : List Char) : List Char :=
  ((s.dropWhile Char.isWhitespace).reverse.dropWhile Char.isWhitespace).reverse

/-- `Searchbar.handleSubmit` (`Searchbar/index.jsx` lines 22-28):
`onSendMessage(inputValue)` is called only when `inputValue.trim()` is
truthy (a non-empty string); otherwise nothing is submitted. -/
def handleSubmit (inputValue : List Char) : Option (List Char) :=
  if jsTrim inputValue ≠ [] then some inputValue else none

/-- The send button's `disabled={!inputValue.trim()}` condition
(`Searchbar/index.jsx` line 60). -/
def sendDisabled (inputValue : List Char) : Bool :=
  jsTrim inputValue = []

/-! ## Supporting lemmas -/

theorem dot_nil_left (b : List ℚ) : dot [] b = 0 := rfl

theorem dot_nil_right (a : List ℚ) : dot a [] = 0 := by
  cases a <;> rfl

theorem dot_cons_cons (x y : ℚ) (a b : List ℚ) :
    dot (x :: a) (y :: b) = x * y + dot a b := by
  simp [dot, List.zipWith]

theorem sumsq_nil : sumsq [] = 0 := rfl

theorem sumsq_cons (x : ℚ) (a : List ℚ) : sumsq (x :: a) = x * x + sumsq a := by
  simp [sumsq, dot_cons_cons]

theorem sumsq_nonneg (a : List ℚ) : 0 ≤ sumsq a := by
  induction a with
  | nil => simp [sumsq_nil]
  | cons x a ih =>
      rw [sumsq_cons]
      nlinarith [mul_self_nonneg x]

/-- Cauchy–Schwarz for the list dot product. -/
theorem dot_sq_le_sumsq_mul_sumsq (a b : List ℚ) :
    dot a b * dot a b ≤ sumsq a * sumsq b := by
  induction a generalizing b with
  | nil =>
      simp [dot_nil_left, sumsq_nil]
  | cons x a ih =>
      cases b with
      | nil =>
          simp [dot_nil_right, sumsq_nil]
      | cons y b =>
          have hA := sumsq_nonneg a
          have hB := sumsq_nonneg b
          have hIH := ih b
          rw [dot_cons_cons, sumsq_cons, sumsq_cons]
          rcases eq_or_lt_of_le hB with hB0 | hBpos
          · have hd : dot a b = 0 := by
              nlinarith [mul_self_nonneg (dot a b)]
            rw [hd]
            nlinarith [mul_nonneg hA (mul_self_nonneg y)]
          · nlinarith [sq_nonneg (x * sumsq b - y * dot a b),
              mul_nonneg (add_nonneg (mul_self_nonneg y) hB)
                (sub_nonneg.mpr hIH), hBpos]

theorem dot_eq_zero_of_sumsq_eq_zero {a : List ℚ} (h : sumsq a = 0) (b : List ℚ) :
    dot a b = 0 := by
  induction a generalizing b with
  | nil => simp [dot_nil_left]
  | cons x a ih =>
      rw [sumsq_cons] at h
      have hA := sumsq_nonneg a
      have hx : x * x = 0 := by nlinarith [mul_self_nonneg x]
      have hx0 : x = 0 := mul_self_eq_zero.mp hx
      have ha : sumsq a = 0 := by linarith
      cases b with
      | nil => simp [dot_nil_right]
      | cons y b => rw [dot_cons_cons, hx0, ih ha b]; ring

/-- The inserted vector's own score bounds every other document's score:
the self-similarity of the query is maximal. -/
theorem cosSimKey_le_self (q v : List ℚ) : cosSimKey q v ≤ cosSimKey q q := by
  unfold cosSimKey
  rcases eq_or_lt_of_le (sumsq_nonneg q) with hq | hq
  · have hqv : dot q v = 0 := dot_eq_zero_of_sumsq_eq_zero hq.symm v
    have hqq : dot q q = 0 := dot_eq_zero_of_sumsq_eq_zero hq.symm q
    simp [hqv, hqq]
  · have hself : dot q q * |dot q q| / (sumsq q * sumsq q) = 1 := by
      have hqq : dot q q = sumsq q := rfl
      rw [hqq, abs_of_pos hq]
      exact div_self (by positivity)
    rw [hself]
    rcases eq_or_lt_of_le (sumsq_nonneg v) with hv | hv
    · have h0 : sumsq q * sumsq v = 0 := by rw [← hv]; ring
      rw [h0, div_zero]
      norm_num
    · apply div_le_one_of_le₀
      · have h1 : dot q v * |dot q v| ≤ dot q v * dot q v :=
          calc dot q v * |dot q v| ≤ abs (dot q v * |dot q v|) := le_abs_self _
            _ = |dot q v| * |dot q v| := by rw [abs_mul, abs_abs]
            _ = dot q v * dot q v := by rw [← abs_mul, abs_mul_self]
        exact le_trans h1 (dot_sq_le_sumsq_mul_sumsq q v)
      · exact mul_nonneg (sumsq_nonneg q) (sumsq_nonneg v)

theorem search_length_le (store : DocumentStore) (q : List ℚ) (k : Nat) :
    (search store q k).length ≤ k := by
  unfold search
  rw [List.length_take]
  exact min_le_left _ _

theorem search_sorted (store : DocumentStore) (q : List ℚ) (k : Nat) :
    List.Sorted scoreGE (search store q k) := by
  unfold search
  exact (List.sorted_insertionSort scoreGE _).sublist (List.take_sublist _ _)

/-- The head of a list sorted by non-increasing score bounds every
member's score. -/
theorem sorted_head_max {a : Document × ℚ} {l : List (Document × ℚ)}
    (h : List.Sorted scoreGE (a :: l)) :
    ∀ x ∈ a :: l, x.2 ≤ a.2 := by
  intro x hx
  rcases List.mem_cons.mp hx with rfl | hx
  · exact le_refl _
  · exact List.rel_of_sorted_cons h x hx

/-- Every result of `search` is a stored document paired with its
similarity score against the query. -/
theorem search_mem (store : DocumentStore) (q : List ℚ) (k : Nat)
    {p : Document × ℚ} (hp : p ∈ search store q k) :
    p.1 ∈ store.docs ∧ p.2 = cosSimKey q p.1.embedding := by
  unfold search at hp
  have hp' := List.mem_of_mem_take hp
  have hp'' := (List.mem_insertionSort scoreGE).mp hp'
  rcases List.mem_map.mp hp'' with ⟨d, hd, rfl⟩
  exact ⟨hd, rfl⟩

/-- No event after startup changes the selected backend. -/
theorem step_preserves_backend (s : Sys) (op : Op) :
    (step s op).store.backend = s.store.backend := by
  cases op <;> rfl

theorem run_preserves_backend (s : Sys) (ops : List Op) :
    (run s ops).store.backend = s.store.backend := by
  induction ops generalizing s with
  | nil => rfl
  | cons op ops ih =>
      show (run (step s op) ops).store.backend = s.store.backend
      rw [ih (step s op), step_preserves_backend]

theorem jsTrim_eq_nil_of_all_ws {s : List Char}
    (h : ∀ c ∈ s, Char.isWhitespace c) : jsTrim s = [] := by
  unfold jsTrim
  have h1 : s.dropWhile Char.isWhitespace = [] :=
    List.dropWhile_eq_nil_iff.mpr h
  rw [h1]
  rfl

theorem filter_not_loading_of_none {l : List Msg}
    (h : ∀ m ∈ l, m.isLoading = false) :
    l.filter (fun m => !m.isLoading) = l := by
  rw [List.filter_eq_self]
  intro m hm
  rw [h m hm]
  rfl

theorem search_eq_nil_of_docs_nil {store : DocumentStore} (h : store.docs = [])
    (q : List ℚ) (k : Nat) : search store q k = [] := by
  unfold search
  rw [h]
  simp

/-- For a positive `k` and any stored document, `search` has a head
result whose score bounds that document's score, and which is itself a
stored document paired with its own score. -/
theorem search_head_ge (store : DocumentStore) (q : List ℚ) {k : Nat}
    (hk : 1 ≤ k) {d : Document} (hd : d ∈ store.docs) :
    ∃ a, (search store q k).head? = some a ∧ cosSimKey q d.embedding ≤ a.2 ∧
      a.1 ∈ store.docs ∧ a.2 = cosSimKey q a.1.embedding := by
  unfold search
  cases hS : (store.docs.map fun d => (d, cosSimKey q d.embedding)).insertionSort scoreGE with
  | nil =>
      exfalso
      have hmem : (d, cosSimKey q d.embedding) ∈
          (store.docs.map fun d => (d, cosSimKey q d.embedding)).insertionSort scoreGE :=
        (List.mem_insertionSort scoreGE).mpr (List.mem_map.mpr ⟨d, hd, rfl⟩)
      rw [hS] at hmem
      exact absurd hmem (List.not_mem_nil _)
  | cons a tail =>
      have hsorted : List.Sorted scoreGE (a :: tail) := by
        rw [← hS]
        exact List.sorted_insertionSort scoreGE _
      have hmem : (d, cosSimKey q d.embedding) ∈ a :: tail := by
        rw [← hS]
        exact (List.mem_insertionSort scoreGE).mpr (List.mem_map.mpr ⟨d, hd, rfl⟩)
      have hamem : a ∈ (store.docs.map fun d => (d, cosSimKey q d.embedding)).insertionSort scoreGE := by
        rw [hS]
        exact List.mem_cons_self a tail
      obtain ⟨d', hd', heq⟩ :=
        List.mem_map.mp ((List.mem_insertionSort scoreGE).mp hamem)
      refine ⟨a, ?_, ?_, ?_, ?_⟩
      · cases k with
        | zero => omega
        | succ k' => rfl
      · exact sorted_head_max hsorted _ hmem
      · rw [← heq]
        exact hd'
      · rw [← heq]

theorem chat_of_empty_message (embed : Provider (List ℚ)) (gen : Provider String)
    (store : DocumentStore) (en gn : Nat) :
    chat embed gen store "" en gn = (.error .invalidInput, en, gn) := by
  simp [chat]

theorem chat_of_embed_error {embed : Provider (List ℚ)} {message : String}
    {en : Nat} {e : Unit} (hm : message ≠ "") (he : embed message en = .error e)
    (gen : Provider String) (store : DocumentStore) (gn : Nat) :
    chat embed gen store message en gn = (.error .providerUnavailable, en + 1, gn) := by
  simp [chat, hm, retrieve, he]

theorem chat_of_gen_error {embed : Provider (List ℚ)} {gen : Provider String}
    {store : DocumentStore} {message : String} {en gn : Nat} {v : List ℚ} {e : Unit}
    (hm : message ≠ "") (he : embed message en = .ok v)
    (hg : gen (buildPrompt ((search store v 3).map fun p => p.1.text) message) gn = .error e) :
    chat embed gen store message en gn = (.error .providerUnavailable, en + 1, gn + 1) := by
  simp [chat, hm, retrieve, he, generate, hg]

theorem chat_of_ok {embed : Provider (List ℚ)} {gen : Provider String}
    {store : DocumentStore} {message : String} {en gn : Nat} {v : List ℚ} {reply : String}
    (hm : message ≠ "") (he : embed message en = .ok v)
    (hg : gen (buildPrompt ((search store v 3).map fun p => p.1.text) message) gn = .ok reply) :
    chat embed gen store message en gn =
      (.ok ⟨reply, (search store v 3).map fun p => p.1.text, backendName store.backend⟩,
       en + 1, gn + 1) := by
  simp [chat, hm, retrieve, he, generate, hg]

/-- The single response message `handleSendMessage` appends after the
user's message: the backend's reply on success, an error text on a
non-ok status or a thrown error. -/
def hsmReply : FetchOutcome → Msg
  | .success reply => replyMsg reply
  | .httpError status => replyMsg (errorReplyText ("HTTP error! status: " ++ toString status))
  | .networkError emsg => replyMsg (errorReplyText emsg)

theorem handleSendMessage_eq (prior : List Msg) (message : String)
    (outcome : FetchOutcome) (hprior : ∀ m ∈ prior, m.isLoading = false) :
    handleSendMessage prior message outcome =
      prior ++ [userMsg message, hsmReply outcome] := by
  have hfilter : ((prior ++ [userMsg message]) ++ [loadingMsg]).filter (fun m => !m.isLoading)
      = prior ++ [userMsg message] := by
    rw [List.filter_append, List.filter_append, filter_not_loading_of_none hprior]
    simp [userMsg, loadingMsg]
  cases outcome with
  | success reply =>
      show ((prior ++ [userMsg message]) ++ [loadingMsg]).filter (fun m => !m.isLoading)
          ++ [replyMsg reply] = prior ++ [userMsg message, hsmReply (.success reply)]
      rw [hfilter, List.append_assoc]
      rfl
  | httpError status =>
      show ((prior ++ [userMsg message]) ++ [loadingMsg]).filter (fun m => !m.isLoading)
          ++ [replyMsg (errorReplyText ("HTTP error! status: " ++ toString status))]
          = prior ++ [userMsg message, hsmReply (.httpError status)]
      rw [hfilter, List.append_assoc]
      rfl
  | networkError emsg =>
      show ((prior ++ [userMsg message]) ++ [loadingMsg]).filter (fun m => !m.isLoading)
          ++ [replyMsg (errorReplyText emsg)]
          = prior ++ [userMsg message, hsmReply (.networkError emsg)]
      rw [hfilter, List.append_assoc]
      rfl

/-! ## Claim theorems -/

/-- C1: for every non-empty document store and every `k`, `search(q, k)`
returns at most `k` results, ordered by non-increasing similarity score,
and the same contract holds whichever backend (primary or fallback) the
store selected. -/
theorem search_at_most_k_and_sorted (b : Backend) (docs : List Document)
    (nextId : Nat) (q : List ℚ) (k : Nat) (hne : docs ≠ []) :
    (search ⟨b, docs, nextId⟩ q k).length ≤ k ∧
    List.Sorted scoreGE (search ⟨b, docs, nextId⟩ q k) :=
  ⟨search_length_le _ _ _, search_sorted _ _ _⟩

/-- Witness for C1 at a concrete one-document store and `k = 2`. -/
theorem search_at_most_k_and_sorted_witness :
    ([(⟨0, "a", [1], none⟩ : Document)] ≠ []) ∧
    ((search ⟨Backend.primary, [⟨0, "a", [1], none⟩], 1⟩ [1] 2).length ≤ 2 ∧
     List.Sorted scoreGE (search ⟨Backend.primary, [⟨0, "a", [1], none⟩], 1⟩ [1] 2)) :=
  ⟨by simp, search_at_most_k_and_sorted Backend.primary [⟨0, "a", [1], none⟩] 1 [1] 2 (by simp)⟩

/-- C2: if the primary backend fails at startup, the store uses the
fallback backend for the remainder of the process lifetime: after any
sequence of operations and environment events (including the primary
becoming reachable again), `info().backend` still reports the fallback
backend, and no single step ever changes the selected backend. -/
theorem fallback_is_permanent (ops : List Op) :
    (run ⟨initStore false, false⟩ ops).store.backend = Backend.fallback ∧
    (info (run ⟨initStore false, false⟩ ops).store).backend = "fallback" ∧
    ∀ (s : Sys) (op : Op), (step s op).store.backend = s.store.backend := by
  have h : (run ⟨initStore false, false⟩ ops).store.backend = Backend.fallback := by
    rw [run_preserves_backend]
    rfl
  exact ⟨h, by simp [info, h, backendName], step_preserves_backend⟩

/-- C3: on an empty document store, `retrieve(queryText)` returns an
empty snippet list together with the backend flag (not an error), and
`POST /chat` with `{message: "hello"}` returns `contextUsed: []` and a
generated reply, not an error — given that the provider calls
themselves succeed. -/
theorem empty_store_retrieve_and_chat_ok (embed : Provider (List ℚ))
    (gen : Provider String) (store : DocumentStore) (q : String)
    (n en gn : Nat) (v w : List ℚ) (reply : String)
    (hstore : store.docs = [])
    (hq : embed q n = .ok v)
    (hh : embed "hello" en = .ok w)
    (hg : gen (buildPrompt [] "hello") gn = .ok reply) :
    retrieve embed store q n = (.ok ⟨[], backendName store.backend⟩, n + 1) ∧
    chat embed gen store "hello" en gn =
      (.ok ⟨reply, [], backendName store.backend⟩, en + 1, gn + 1) := by
  constructor
  · simp [retrieve, hq, search_eq_nil_of_docs_nil hstore]
  · have h := @chat_of_ok embed gen store "hello" en gn w reply (by simp) hh
    rw [search_eq_nil_of_docs_nil hstore] at h
    exact h (by simpa using hg)

/-- Witness for C3 at a concrete empty store with concrete providers. -/
theorem empty_store_retrieve_and_chat_ok_witness :
    ((⟨Backend.fallback, [], 0⟩ : DocumentStore).docs = []) ∧
    (retrieve (fun _ _ => .ok [1]) ⟨Backend.fallback, [], 0⟩ "anything" 0 =
        (.ok ⟨[], backendName Backend.fallback⟩, 0 + 1) ∧
     chat (fun _ _ => .ok [1]) (fun _ _ => .ok "a reply") ⟨Backend.fallback, [], 0⟩
        "hello" 0 0 = (.ok ⟨"a reply", [], backendName Backend.fallback⟩, 0 + 1, 0 + 1)) :=
  ⟨rfl, empty_store_retrieve_and_chat_ok (fun _ _ => .ok [1]) (fun _ _ => .ok "a reply")
    ⟨Backend.fallback, [], 0⟩ "anything" 0 0 0 [1] [1] "a reply" rfl rfl rfl rfl⟩

/-- C4: `retrieve(queryText)` makes exactly one embedding-provider call
(advancing the call counter by one, with no retry even on failure);
if the provider call errors the whole request fails with
`ProviderUnavailable`, and otherwise the result is exactly the text
fields of `search` with `k = 3`, in the same (non-increasing
similarity) order, together with the name of the backend that served
the request. -/
theorem retrieve_contract (embed : Provider (List ℚ)) (store : DocumentStore)
    (q : String) (n : Nat) :
    (retrieve embed store q n).2 = n + 1 ∧
    (∀ e, embed q n = .error e →
        (retrieve embed store q n).1 = .error .providerUnavailable) ∧
    (∀ v, embed q n = .ok v →
        (retrieve embed store q n).1 =
          .ok ⟨(search store v 3).map fun p => p.1.text, backendName store.backend⟩ ∧
        List.Sorted scoreGE (search store v 3)) := by
  refine ⟨?_, ?_, ?_⟩
  · cases h : embed q n <;> simp [retrieve, h]
  · intro e he
    simp [retrieve, he]
  · intro v hv
    exact ⟨by simp [retrieve, hv], search_sorted _ _ _⟩

/-- Witness for C4 at a concrete store and a concrete succeeding
provider. -/
theorem retrieve_contract_witness :
    (retrieve (fun _ _ => .ok [1]) ⟨Backend.fallback, [], 0⟩ "q" 0).1 =
      .ok ⟨(search ⟨Backend.fallback, [], 0⟩ [1] 3).map fun p => p.1.text,
        backendName Backend.fallback⟩ ∧
    List.Sorted scoreGE (search ⟨Backend.fallback, [], 0⟩ [1] 3) :=
  (retrieve_contract (fun _ _ => .ok [1]) ⟨Backend.fallback, [], 0⟩ "q" 0).2.2 [1] rfl

/-- C5: inserting a document and immediately searching with that
document's own embedding as the query (any `k ≥ 1`) yields a top result
whose score equals the inserted document's self-similarity score, and
no returned result scores higher — the inserted document is the top or
tied-top result. -/
theorem insert_then_search_self_top (store : DocumentStore) (text : String)
    (emb : List ℚ) (md : Option String) (k : Nat) (hk : 1 ≤ k) :
    (search (insert store text emb md).2 emb k).head?.map Prod.snd =
      some (cosSimKey emb emb) ∧
    ∀ p ∈ search (insert store text emb md).2 emb k, p.2 ≤ cosSimKey emb emb := by
  have hd : (⟨store.nextId, text, emb, md⟩ : Document) ∈ (insert store text emb md).2.docs := by
    simp [insert]
  obtain ⟨a, ha1, ha2, _, ha4⟩ := search_head_ge (insert store text emb md).2 emb hk hd
  constructor
  · rw [ha1]
    have hle : a.2 ≤ cosSimKey emb emb := by
      rw [ha4]
      exact cosSimKey_le_self emb a.1.embedding
    have heq : a.2 = cosSimKey emb emb := le_antisymm hle ha2
    simp [heq]
  · intro p hp
    obtain ⟨-, hps⟩ := search_mem _ _ _ hp
    rw [hps]
    exact cosSimKey_le_self _ _

/-- Witness for C5: insert into a concrete empty store and search with
the inserted embedding, `k = 1`. -/
theorem insert_then_search_self_top_witness :
    (1 ≤ 1) ∧
    ((search (insert ⟨Backend.fallback, [], 0⟩ "a" [1] none).2 [1] 1).head?.map Prod.snd =
        some (cosSimKey [1] [1]) ∧
     ∀ p ∈ search (insert ⟨Backend.fallback, [], 0⟩ "a" [1] none).2 [1] 1,
        p.2 ≤ cosSimKey [1] [1]) :=
  ⟨le_refl 1, insert_then_search_self_top ⟨Backend.fallback, [], 0⟩ "a" [1] none 1 (le_refl 1)⟩

/-- C6: `ingest(text="X", metadata="m")` (computing an embedding and
delegating to Document Store `insert`) followed by `GET /milvus-info`
yields a `count` exactly one greater than before, for every prior store
state — given the embedding call succeeds. -/
theorem ingest_increments_count (embed : Provider (List ℚ))
    (store : DocumentStore) (n : Nat) (v : List ℚ)
    (hv : embed "X" n = .ok v) :
    (info (ingest embed store "X" (some "m") n).2.1).count = (info store).count + 1 := by
  simp [ingest, hv, insert, info]

/-- Witness for C6 at a concrete store and provider. -/
theorem ingest_increments_count_witness :
    ((fun (_ : String) (_ : Nat) => (.ok [1] : Except Unit (List ℚ))) "X" 0 = .ok [1]) ∧
    (info (ingest (fun _ _ => .ok [1]) ⟨Backend.fallback, [], 0⟩ "X" (some "m") 0).2.1).count =
      (info ⟨Backend.fallback, [], 0⟩).count + 1 :=
  ⟨rfl, ingest_increments_count (fun _ _ => .ok [1]) ⟨Backend.fallback, [], 0⟩ 0 [1] rfl⟩

/-- C7: `generate(queryText, snippets)` builds a single prompt whose
lines are the fixed instruction, then the snippets in their given order
each on its own line (every snippet appears whole — truncation never
splits a snippet), then the user query; and it returns the generation
API's text output verbatim. -/
theorem generate_prompt_contract (gen : Provider String) (q : String)
    (snippets : List String) (n : Nat) :
    buildPromptLines snippets q = fixedInstruction :: (snippets ++ [q]) ∧
    (∀ s ∈ snippets, s ∈ buildPromptLines snippets q) ∧
    buildPrompt snippets q = String.intercalate "\n" (buildPromptLines snippets q) ∧
    (∀ t, gen (buildPrompt snippets q) n = .ok t →
        generate gen q snippets n = (.ok t, n + 1)) := by
  refine ⟨rfl, ?_, rfl, ?_⟩
  · intro s hs
    simp [buildPromptLines, hs]
  · intro t ht
    simp [generate, ht]

/-- Witness for C7 with a concrete snippet list and generation
provider. -/
theorem generate_prompt_contract_witness :
    ((fun (_ : String) (_ : Nat) => (.ok "reply" : Except Unit String))
        (buildPrompt ["s1", "s2"] "q") 0 = .ok "reply") ∧
    generate (fun _ _ => .ok "reply") "q" ["s1", "s2"] 0 = (.ok "reply", 0 + 1) :=
  ⟨rfl, (generate_prompt_contract (fun _ _ => .ok "reply") "q" ["s1", "s2"] 0).2.2.2 "reply" rfl⟩

/-- C8: every failure is classified into exactly one of the three error
kinds with the stated surfacing: a failed embedding or generation call
surfaces as `ProviderUnavailable` with HTTP 500 (a 5xx); an empty
required field yields `InvalidInput` with HTTP 400 (a 4xx); a primary
backend unreachable at startup only triggers the permanent fallback and
is never surfaced by a `chat` request; and no operation retries — one
`chat` request advances the embedding-call counter by at most one and
the generation-call counter by at most one. -/
theorem error_classification (embed : Provider (List ℚ)) (gen : Provider String)
    (store : DocumentStore) (message : String) (en gn : Nat) :
    httpStatus Err.providerUnavailable = 500 ∧
    httpStatus Err.invalidInput = 400 ∧
    (message = "" → (chat embed gen store message en gn).1 = .error .invalidInput) ∧
    (∀ e, message ≠ "" → embed message en = .error e →
        (chat embed gen store message en gn).1 = .error .providerUnavailable) ∧
    (∀ v e, message ≠ "" → embed message en = .ok v →
        gen (buildPrompt ((search store v 3).map fun p => p.1.text) message) gn = .error e →
        (chat embed gen store message en gn).1 = .error .providerUnavailable) ∧
    (chat embed gen store message en gn).1 ≠ .error .storeUnavailable ∧
    (initStore false).backend = Backend.fallback ∧
    (chat embed gen store message en gn).2.1 ≤ en + 1 ∧
    (chat embed gen store message en gn).2.2 ≤ gn + 1 := by
  refine ⟨rfl, rfl, ?_, ?_, ?_, ?_, rfl, ?_, ?_⟩
  · intro hm
    subst hm
    rw [chat_of_empty_message]
  · intro e hm he
    rw [chat_of_embed_error hm he]
  · intro v e hm he hg
    rw [chat_of_gen_error hm he hg]
  · by_cases hm : message = ""
    · subst hm
      rw [chat_of_empty_message]
      simp
    · cases he : embed message en with
      | error e =>
          rw [chat_of_embed_error hm he]
          simp
      | ok v =>
          cases hg : gen (buildPrompt ((search store v 3).map fun p => p.1.text) message) gn with
          | error e =>
              rw [chat_of_gen_error hm he hg]
              simp
          | ok reply =>
              rw [chat_of_ok hm he hg]
              simp
  · by_cases hm : message = ""
    · subst hm
      rw [chat_of_empty_message]
      exact Nat.le_succ en
    · cases he : embed message en with
      | error e =>
          rw [chat_of_embed_error hm he]
      | ok v =>
          cases hg : gen (buildPrompt ((search store v 3).map fun p => p.1.text) message) gn with
          | error e => rw [chat_of_gen_error hm he hg]
          | ok reply => rw [chat_of_ok hm he hg]
  · by_cases hm : message = ""
    · subst hm
      rw [chat_of_empty_message]
      exact Nat.le_succ gn
    · cases he : embed message en with
      | error e =>
          rw [chat_of_embed_error hm he]
          exact Nat.le_succ gn
      | ok v =>
          cases hg : gen (buildPrompt ((search store v 3).map fun p => p.1.text) message) gn with
          | error e => rw [chat_of_gen_error hm he hg]
          | ok reply => rw [chat_of_ok hm he hg]

/-- Witness for C8: the embedded-provider-failure branch at a concrete
input. -/
theorem error_classification_witness :
    ("hello" ≠ "") ∧
    (chat (fun _ _ => .error ()) (fun _ _ => .ok "r") ⟨Backend.fallback, [], 0⟩
        "hello" 0 0).1 = .error .providerUnavailable :=
  ⟨by simp,
   (error_classification (fun _ _ => .error ()) (fun _ _ => .ok "r")
      ⟨Backend.fallback, [], 0⟩ "hello" 0 0).2.2.2.1 () (by simp) rfl⟩

/-- C9 counterexample: `retrieve("")` neither always rejects with
`InvalidInput` nor always returns an empty snippet list — with a
succeeding embedding provider it succeeds (refuting "always rejects"),
and on a non-empty store it returns a non-empty snippet list (refuting
"always returns an empty snippet list"). -/
theorem empty_query_policy_counterexample :
    ¬ ((∀ (embed : Provider (List ℚ)) (store : DocumentStore) (n : Nat),
            (retrieve embed store "" n).1 = .error .invalidInput) ∨
       (∀ (embed : Provider (List ℚ)) (store : DocumentStore) (n : Nat)
            (r : RetrieveResult),
            (retrieve embed store "" n).1 = .ok r → r.snippets = [])) := by
  intro h
  rcases h with h | h
  · have h1 := h (fun _ _ => .ok [1]) ⟨Backend.fallback, [], 0⟩ 0
    have h2 : (retrieve (fun _ _ => .ok [1]) ⟨Backend.fallback, [], 0⟩ "" 0).1 =
        .ok ⟨[], "fallback"⟩ := rfl
    rw [h2] at h1
    exact absurd h1 (by simp)
  · have h1 := h (fun _ _ => .ok [1]) ⟨Backend.fallback, [⟨0, "doc", [1], none⟩], 1⟩ 0
      ⟨["doc"], "fallback"⟩ rfl
    exact absurd h1 (by simp)

/-- C9 (amended): `retrieve` applies no special case to the empty
query — it is never rejected with `InvalidInput` (the only error it can
surface is `ProviderUnavailable`), and on an empty store it returns an
empty snippet list; and, on the client side, the Searchbar never
submits a message whose text is empty or whitespace-only: the submit
handler requires `inputValue.trim()` to be truthy and the send button
is disabled otherwise, so no such input produces a request. -/
theorem empty_query_passthrough_and_searchbar_guard :
    (∀ (embed : Provider (List ℚ)) (store : DocumentStore) (n : Nat) (e : Err),
        (retrieve embed store "" n).1 = .error e → e = .providerUnavailable) ∧
    (∀ (embed : Provider (List ℚ)) (store : DocumentStore) (n : Nat) (v : List ℚ),
        embed "" n = .ok v → store.docs = [] →
        (retrieve embed store "" n).1 = .ok ⟨[], backendName store.backend⟩) ∧
    (∀ input : List Char, (∀ c ∈ input, Char.isWhitespace c = true) →
        handleSubmit input = none ∧ sendDisabled input = true) := by
  refine ⟨?_, ?_, ?_⟩
  · intro embed store n e he
    cases h : embed "" n with
    | error u =>
        simp [retrieve, h] at he
        exact he.symm
    | ok v =>
        simp [retrieve, h] at he
  · intro embed store n v hv hstore
    simp [retrieve, hv, search_eq_nil_of_docs_nil hstore]
  · intro input hws
    have ht := jsTrim_eq_nil_of_all_ws hws
    constructor
    · simp [handleSubmit, ht]
    · simp [sendDisabled, ht]

/-- Witness for the amended C9: a concrete empty store run of
`retrieve("")` and a concrete whitespace-only Searchbar input. -/
theorem empty_query_passthrough_and_searchbar_guard_witness :
    ((retrieve (fun _ _ => .ok [1]) ⟨Backend.fallback, [], 0⟩ "" 0).1 =
        .ok ⟨[], backendName Backend.fallback⟩) ∧
    (handleSubmit [' ', ' '] = none ∧ sendDisabled [' ', ' '] = true) :=
  ⟨empty_query_passthrough_and_searchbar_guard.2.1 (fun _ _ => .ok [1])
      ⟨Backend.fallback, [], 0⟩ 0 [1] rfl rfl,
   empty_query_passthrough_and_searchbar_guard.2.2 [' ', ' '] (by decide)⟩

/-- C10 counterexample: if the prior message list already contains a
message flagged `isLoading`, `handleSendMessage` does not leave the
prior messages unchanged — the resulting list is not the prior list
with two messages appended, because the `isLoading` filter also removes
the prior loading message. -/
theorem handleSendMessage_counterexample :
    handleSendMessage [loadingMsg] "hi" (.success "yo") ≠
      [loadingMsg] ++ [userMsg "hi", replyMsg "yo"] := by
  decide

/-- C10 (amended): for every prior message list containing no message
flagged `isLoading` and every sent message, when `handleSendMessage`
completes (fetch success, non-ok status, or thrown error alike) the
resulting list is the prior list, unchanged and in order, with exactly
two messages appended — the user's message followed by exactly one
non-user, non-loading response (the backend's reply on success, an
error text on failure) — and no `isLoading` message remains. -/
theorem handleSendMessage_appends_exactly_two (prior : List Msg)
    (message : String) (outcome : FetchOutcome)
    (hprior : ∀ m ∈ prior, m.isLoading = false) :
    handleSendMessage prior message outcome =
      prior ++ [userMsg message, hsmReply outcome] ∧
    (userMsg message).isUser = true ∧
    (hsmReply outcome).isUser = false ∧
    (hsmReply outcome).isLoading = false ∧
    ∀ m ∈ handleSendMessage prior message outcome, m.isLoading = false := by
  have heq := handleSendMessage_eq prior message outcome hprior
  refine ⟨heq, rfl, ?_, ?_, ?_⟩
  · cases outcome <;> rfl
  · cases outcome <;> rfl
  · intro m hm
    rw [heq] at hm
    rcases List.mem_append.mp hm with h | h
    · exact hprior m h
    · rcases List.mem_cons.mp h with rfl | h
      · rfl
      · rcases List.mem_cons.mp h with rfl | h
        · cases outcome <;> rfl
        · exact absurd h (List.not_mem_nil m)

/-- Witness for the amended C10 at a concrete prior list, message and
outcome. -/
theorem handleSendMessage_appends_exactly_two_witness :
    (∀ m ∈ [userMsg "earlier", replyMsg "earlier reply"], m.isLoading = false) ∧
    (handleSendMessage [userMsg "earlier", replyMsg "earlier reply"] "hi" (.success "ok") =
        [userMsg "earlier", replyMsg "earlier reply"] ++ [userMsg "hi", hsmReply (.success "ok")] ∧
     (userMsg "hi").isUser = true ∧
     (hsmReply (.success "ok")).isUser = false ∧
     (hsmReply (.success "ok")).isLoading = false ∧
     ∀ m ∈ handleSendMessage [userMsg "earlier", replyMsg "earlier reply"] "hi" (.success "ok"),
        m.isLoading = false) :=
  ⟨by decide,
   handleSendMessage_appends_exactly_two [userMsg "earlier", replyMsg "earlier reply"]
      "hi" (.success "ok") (by decide)⟩

end RagApp
